import Mathlib

/-!
Shallow embedding of the JoBookBE backend core (post feed ranking and
application lifecycle), translated from `server/routes/posts.js` and
`server/routes/applications.js`.  Timestamps are modelled as `Int`
milliseconds since the epoch; SQL `INTERVAL '10 days'` and the JS
`10 * 24 * 60 * 60 * 1000` offset both become `tenDaysMs`.
-/

namespace JoBook

inductive AccountType
  | candidate
  | company
deriving DecidableEq, Repr

inductive PostType
  | find_job
  | find_candidate
deriving DecidableEq, Repr

inductive AppStatus
  | pending
  | reviewed
  | accepted
  | rejected
deriving DecidableEq, Repr

structure User where
  id : Nat
  account_type : AccountType
deriving DecidableEq, Repr

structure Cv where
  id : Nat
  user_id : Nat
  is_active : Bool
deriving DecidableEq, Repr

/-- Rows of the `posts` table.  Text fields (`title`, `description`) and
`updated_at` are omitted: no claim refers to them. -/
structure Post where
  id : Nat
  user_id : Nat
  post_type : PostType
  attached_cv_id : Option Nat
  created_at : Int
deriving DecidableEq, Repr

structure Application where
  id : Nat
  post_id : Nat
  cv_id : Nat
  applicant_id : Nat
  status : AppStatus
  created_at : Int
deriving DecidableEq, Repr

structure Follow where
  follower_id : Nat
  following_id : Nat
deriving DecidableEq, Repr

structure DB where
  users : List User
  cvs : List Cv
  posts : List Post
  applications : List Application
  follows : List Follow
  nextPostId : Nat
  nextAppId : Nat
deriving DecidableEq, Repr

/-- The error conditions surfaced by the routes, named as in the spec. -/
inductive ApiError
  | ForbiddenError
  | NotFoundError
  | InvalidPostTypeError
  | ExpiredPostError
  | InvalidCvError
  | DuplicateApplicationError
  | InvalidStatusError
  | NotFoundOrUnauthorizedError
  | MissingCvError
deriving DecidableEq, Repr

/-- The HTTP status code each error is sent with (`res.status(...)` in the
routes). -/
def httpStatus : ApiError → Nat
  | .ForbiddenError => 403
  | .NotFoundError => 404
  | .InvalidPostTypeError => 400
  | .ExpiredPostError => 400
  | .InvalidCvError => 400
  | .DuplicateApplicationError => 400
  | .InvalidStatusError => 400
  | .NotFoundOrUnauthorizedError => 404
  | .MissingCvError => 400

def tenDaysMs : Int := 10 * 24 * 60 * 60 * 1000

/-- JS truthiness of an optional numeric id (`0`, `null` and `undefined`
are falsy). -/
def jsTruthy : Option Nat → Bool
  | none => false
  | some v => v != 0

/-- The `attached_cv_id || null` coercion used before SQL inserts. -/
def orNull (o : Option Nat) : Option Nat :=
  if jsTruthy o then o else none

/-- `SELECT ... FROM posts WHERE id = $1` (first matching row). -/
def findPost (db : DB) (pid : Nat) : Option Post :=
  db.posts.find? fun p => p.id == pid

/-- The `is_expired` CASE of the feed query (`posts.js` GET `/`):
`post_type = 'find_candidate' AND created_at < CURRENT_TIMESTAMP - INTERVAL '10 days'`. -/
def feedIsExpired (now : Int) (p : Post) : Bool :=
  decide (p.post_type = .find_candidate ∧ p.created_at < now - tenDaysMs)

/-- The `is_expired` CASE of the single-post query (`posts.js` GET `/:id`),
textually the same condition as the feed's. -/
def singleIsExpired (now : Int) (p : Post) : Bool :=
  decide (p.post_type = .find_candidate ∧ p.created_at < now - tenDaysMs)

/-- The expiration guard inside apply (`applications.js` line 34):
`post.created_at < new Date(Date.now() - 10 * 24 * 60 * 60 * 1000)`.
No post-type test appears in this expression; the route reaches it only
for `find_candidate` posts. -/
def applyExpiredCheck (now : Int) (p : Post) : Bool :=
  decide (p.created_at < now - tenDaysMs)

/-- POST `/applications` (`applications.js` router.post).  The INSERT does
not mention the `status` column; the initial `pending` value is
modelled from the spec: the `applications` table schema (not in the
backend sources) defaults `status` to `pending`, per §3 of the spec
("initial state `pending`"). -/
def apply (db : DB) (now : Int) (actor : User) (post_id cv_id : Nat) :
    Except ApiError (Application × DB) :=
  if actor.account_type ≠ .candidate then
    .error .ForbiddenError
  else
    match findPost db post_id with
    | none => .error .NotFoundError
    | some post =>
      if post.post_type ≠ .find_candidate then
        .error .InvalidPostTypeError
      else if applyExpiredCheck now post = true then
        .error .ExpiredPostError
      else if (db.cvs.any fun c => c.id == cv_id && c.user_id == actor.id && c.is_active) = false then
        .error .InvalidCvError
      else if (db.applications.any fun a => a.post_id == post_id && a.applicant_id == actor.id) = true then
        .error .DuplicateApplicationError
      else
        let app : Application :=
          { id := db.nextAppId, post_id := post_id, cv_id := cv_id,
            applicant_id := actor.id, status := .pending, created_at := now }
        .ok (app, { db with applications := db.applications ++ [app],
                            nextAppId := db.nextAppId + 1 })

/-- The `validStatuses.includes(status)` check of the PATCH route is
equivalent to this parse succeeding: the four accepted strings map onto
`AppStatus`, everything else is rejected. -/
def parseStatus : String → Option AppStatus
  | "pending" => some .pending
  | "reviewed" => some .reviewed
  | "accepted" => some .accepted
  | "rejected" => some .rejected
  | _ => none

def statusToString : AppStatus → String
  | .pending => "pending"
  | .reviewed => "reviewed"
  | .accepted => "accepted"
  | .rejected => "rejected"

/-- The row condition of the PATCH `/applications/:id/status` UPDATE:
`applications.id = $2 AND applications.post_id = posts.id AND posts.user_id = $3`. -/
def ownsRow (db : DB) (actorId appId : Nat) (a : Application) : Bool :=
  a.id == appId && db.posts.any fun p => p.id == a.post_id && p.user_id == actorId

/-- PATCH `/applications/:id/status` (`applications.js` router.patch).
The UPDATE sets the status on every matching row and returns the first;
no condition on the current status appears anywhere in the route. -/
def updateStatus (db : DB) (actorId appId : Nat) (status : String) :
    Except ApiError (Application × DB) :=
  match parseStatus status with
  | none => .error .InvalidStatusError
  | some st =>
    match db.applications.find? (ownsRow db actorId appId) with
    | none => .error .NotFoundOrUnauthorizedError
    | some a =>
      .ok ({ a with status := st },
        { db with applications := db.applications.map fun x =>
            if ownsRow db actorId appId x then { x with status := st } else x })

/-- POST `/posts` (`posts.js` router.post). -/
def createPost (db : DB) (now : Int) (actor : User) (post_type : PostType)
    (attached_cv_id : Option Nat) : Except ApiError (Post × DB) :=
  if post_type = .find_job ∧ actor.account_type ≠ .candidate then
    .error .InvalidPostTypeError
  else if post_type = .find_candidate ∧ actor.account_type ≠ .company then
    .error .InvalidPostTypeError
  else if post_type = .find_job ∧ jsTruthy attached_cv_id = false then
    .error .MissingCvError
  else
    let post : Post :=
      { id := db.nextPostId, user_id := actor.id, post_type := post_type,
        attached_cv_id := orNull attached_cv_id, created_at := now }
    .ok (post, { db with posts := db.posts ++ [post], nextPostId := db.nextPostId + 1 })

/-- PUT `/posts/:id` (`posts.js` router.put), restricted to the fields the
model keeps. -/
def updatePost (db : DB) (actor : User) (postId : Nat) (attached_cv_id : Option Nat) :
    Except ApiError (Post × DB) :=
  match db.posts.find? (fun p => p.id == postId && p.user_id == actor.id) with
  | none => .error .NotFoundOrUnauthorizedError
  | some post =>
    if post.post_type = .find_job ∧ jsTruthy attached_cv_id = false then
      .error .MissingCvError
    else
      let post2 : Post := { post with attached_cv_id := orNull attached_cv_id }
      .ok (post2, { db with posts := db.posts.map fun p =>
          if p.id == postId && p.user_id == actor.id then
            { p with attached_cv_id := orNull attached_cv_id }
          else p })

/-- DELETE `/posts/:id` (`posts.js` router.delete): the route checks
`rowCount === 0` of the ownership-conditioned DELETE. -/
def deletePost (db : DB) (actor : User) (postId : Nat) : Except ApiError DB :=
  if (db.posts.filter fun p => p.id == postId && p.user_id == actor.id).length = 0 then
    .error .NotFoundOrUnauthorizedError
  else
    .ok { db with posts := db.posts.filter fun p => !(p.id == postId && p.user_id == actor.id) }

/-- Insertion sort by `created_at` descending, modelling
`ORDER BY a.created_at DESC` of the by-post listing. -/
def insertByCreatedDesc (a : Application) : List Application → List Application
  | [] => [a]
  | b :: l =>
    if b.created_at ≤ a.created_at then a :: b :: l else b :: insertByCreatedDesc a l

def sortByCreatedDesc : List Application → List Application
  | [] => []
  | a :: l => insertByCreatedDesc a (sortByCreatedDesc l)

/-- GET `/applications/post/:postId` (`applications.js`): a 404 when the
post is absent, then a 403 — not a 404 — when the post exists but the
actor is not its owner. -/
def listForPost (db : DB) (actor : User) (postId : Nat) :
    Except ApiError (List Application) :=
  match findPost db postId with
  | none => .error .NotFoundError
  | some post =>
    if post.user_id ≠ actor.id then
      .error .ForbiddenError
    else
      .ok (sortByCreatedDesc (db.applications.filter fun a => a.post_id == postId))

/-- First ORDER BY key of the feed query: the expiration-bucket CASE
(non-expired 0, expired 1). -/
def expBucket (now : Int) (p : Post) : Nat :=
  if p.post_type = .find_candidate ∧ p.created_at < now - tenDaysMs then 1 else 0

/-- The `is_following_author` LEFT JOIN condition:
`f.following_id = p.user_id AND f.follower_id = $1`. -/
def isFollowingAuthor (db : DB) (viewerId : Nat) (p : Post) : Bool :=
  db.follows.any fun f => f.following_id == p.user_id && f.follower_id == viewerId

/-- Second ORDER BY key: followed authors 0, others 1. -/
def followBucket (db : DB) (viewerId : Nat) (p : Post) : Nat :=
  if isFollowingAuthor db viewerId p then 0 else 1

/-- The composite ORDER BY comparator of the feed query: expiration bucket
ascending, then follow bucket ascending, then `created_at` descending.
No further key appears in the query. -/
def feedLE (db : DB) (viewerId : Nat) (now : Int) (a b : Post) : Bool :=
  if expBucket now a < expBucket now b then true
  else if expBucket now b < expBucket now a then false
  else if followBucket db viewerId a < followBucket db viewerId b then true
  else if followBucket db viewerId b < followBucket db viewerId a then false
  else decide (b.created_at ≤ a.created_at)

/-- Row filter of the feed query: the optional `type` query parameter plus
the inner JOIN with `users` on the author id. -/
def feedMatches (db : DB) (typeFilter : Option PostType) (p : Post) : Bool :=
  (match typeFilter with
   | none => true
   | some t => p.post_type == t) &&
  db.users.any fun u => u.id == p.user_id

/-- What the database may return for GET `/posts`: some permutation of the
matching rows that is pairwise ordered by the ORDER BY comparator, cut by
`LIMIT $limit OFFSET (page - 1) * limit`.  SQL fixes nothing beyond this. -/
def isFeedResult (db : DB) (viewerId : Nat) (now : Int) (typeFilter : Option PostType)
    (page limit : Nat) (result : List Post) : Prop :=
  ∃ full : List Post,
    (db.posts.filter (feedMatches db typeFilter)).Perm full ∧
    List.Chain' (fun a b => feedLE db viewerId now a b = true) full ∧
    result = (full.drop ((page - 1) * limit)).take limit

/-- Lexicographic order on (expiration bucket, follow bucket) pairs. -/
def pairLexLE (x y : Nat × Nat) : Prop :=
  x.1 < y.1 ∨ (x.1 = y.1 ∧ x.2 ≤ y.2)

def bucketPair (db : DB) (viewerId : Nat) (now : Int) (p : Post) : Nat × Nat :=
  (expBucket now p, followBucket db viewerId p)

/-- The ordering contract claimed for adjacent feed posts: bucket pairs
lexicographically non-decreasing, recency non-increasing at equal pairs. -/
def feedOrdOk (db : DB) (viewerId : Nat) (now : Int) (a b : Post) : Prop :=
  pairLexLE (bucketPair db viewerId now a) (bucketPair db viewerId now b) ∧
    (bucketPair db viewerId now a = bucketPair db viewerId now b →
      b.created_at ≤ a.created_at)

/-- The tie-break claimed in §4.4: at equal (expiration bucket, follow
bucket, `created_at`), the later post has the smaller id (id descending). -/
def tieByIdDesc (db : DB) (viewerId : Nat) (now : Int) (a b : Post) : Prop :=
  bucketPair db viewerId now a = bucketPair db viewerId now b →
    a.created_at = b.created_at → b.id < a.id

/-! Concrete fixtures used in witnesses and counterexamples. -/

def uCo : User := { id := 2, account_type := .company }

def uCand : User := { id := 3, account_type := .candidate }

def postOwned : Post :=
  { id := 1, user_id := 2, post_type := .find_candidate, attached_cv_id := none,
    created_at := 0 }

def appPend : Application :=
  { id := 1, post_id := 1, cv_id := 1, applicant_id := 3, status := .pending,
    created_at := 0 }

def appAcc : Application :=
  { id := 1, post_id := 1, cv_id := 1, applicant_id := 3, status := .accepted,
    created_at := 0 }

def dbStatus : DB :=
  { users := [uCo, uCand], cvs := [], posts := [postOwned], applications := [appPend],
    follows := [], nextPostId := 2, nextAppId := 2 }

def dbTerm : DB :=
  { users := [uCo, uCand], cvs := [], posts := [postOwned], applications := [appAcc],
    follows := [], nextPostId := 2, nextAppId := 2 }

/-- A boundary post: exactly ten days old at time `tenDaysMs`. -/
def postB : Post :=
  { id := 1, user_id := 10, post_type := .find_candidate, attached_cv_id := none,
    created_at := 0 }

def pJob : Post :=
  { id := 2, user_id := 10, post_type := .find_job, attached_cv_id := some 3,
    created_at := 0 }

/-- C2 (counterexample): a `find_candidate` post exactly ten days old
(`now - created_at = tenDaysMs`) is not expired under any of the three
checks, while the claim requires `isExpired` to hold at `≥ 10` days. -/
theorem isExpired_boundary_counterexample :
    postB.post_type = .find_candidate ∧
    tenDaysMs - postB.created_at ≥ tenDaysMs ∧
    feedIsExpired tenDaysMs postB = false ∧
    singleIsExpired tenDaysMs postB = false ∧
    applyExpiredCheck tenDaysMs postB = false := by
  decide

/-- C2 (amended): expiration is strict — a `find_candidate` post is
expired iff `now - created_at > 10` days (not `≥`); the feed CASE, the
single-post CASE and the apply guard agree on `find_candidate` posts, and
`find_job` posts are never expired. -/
theorem isExpired_strict_ten_days (now : Int) (p : Post) :
    (feedIsExpired now p = true ↔
      p.post_type = .find_candidate ∧ now - p.created_at > tenDaysMs) ∧
    singleIsExpired now p = feedIsExpired now p ∧
    (p.post_type = .find_candidate → applyExpiredCheck now p = feedIsExpired now p) ∧
    (p.post_type = .find_job → feedIsExpired now p = false) := by
  refine ⟨?_, rfl, ?_, ?_⟩
  · simp only [feedIsExpired, decide_eq_true_eq]
    constructor <;> rintro ⟨h1, h2⟩ <;> exact ⟨h1, by omega⟩
  · intro h
    simp [applyExpiredCheck, feedIsExpired, h]
  · intro h
    simp [feedIsExpired, h]

/-- C2 (witness for the amended theorem): a very old `find_job` post is
still not expired in the feed. -/
theorem isExpired_strict_ten_days_witness :
    feedIsExpired (tenDaysMs * 5) pJob = false :=
  (isExpired_strict_ten_days (tenDaysMs * 5) pJob).2.2.2 rfl

/-- C10: setting an application's status to its current value succeeds and
returns the application unchanged; the route never inspects the current
status. -/
theorem updateStatus_same_status_noop (db : DB) (actorId appId : Nat) (a : Application)
    (h : db.applications.find? (ownsRow db actorId appId) = some a) :
    updateStatus db actorId appId (statusToString a.status) =
      .ok (a, { db with applications := db.applications.map (fun x =>
          if ownsRow db actorId appId x then { x with status := a.status } else x) }) := by
  have hp : parseStatus (statusToString a.status) = some a.status := by
    cases a.status <;> rfl
  simp only [updateStatus, hp, h]

/-- C10 (witness): the owning company re-sets a pending application to
`pending` and gets it back unchanged. -/
theorem updateStatus_same_status_noop_witness :
    updateStatus dbStatus 2 1 "pending" =
      .ok (appPend, { dbStatus with applications := dbStatus.applications.map (fun x =>
          if ownsRow dbStatus 2 1 x then { x with status := AppStatus.pending } else x) }) :=
  updateStatus_same_status_noop dbStatus 2 1 appPend (by decide)

/-- C1 (counterexample): an application already in the terminal status
`accepted` is moved to `reviewed` by the owning company — the route never
looks at the current status, so the transition succeeds instead of
failing with `InvalidStatusError`. -/
theorem updateStatus_terminal_counterexample :
    appAcc.status = .accepted ∧
    updateStatus dbTerm 2 1 "reviewed" =
      .ok ({ appAcc with status := .reviewed },
        { dbTerm with applications := [{ appAcc with status := .reviewed }] }) :=
  ⟨rfl, rfl⟩

/-- C1 (amended): `updateStatus` ignores the current status entirely: for
any valid new status it succeeds whenever the actor owns the referenced
post — whatever the current status, terminal or not — and fails with
`NotFoundOrUnauthorizedError` for every other actor. -/
theorem updateStatus_ignores_current_status (db : DB) (actorId appId : Nat)
    (s : String) (st : AppStatus) (a : Application) (hs : parseStatus s = some st) :
    (db.applications.find? (ownsRow db actorId appId) = some a →
      updateStatus db actorId appId s =
        .ok ({ a with status := st },
          { db with applications := db.applications.map (fun x =>
              if ownsRow db actorId appId x then { x with status := st } else x) })) ∧
    (db.applications.find? (ownsRow db actorId appId) = none →
      updateStatus db actorId appId s = .error .NotFoundOrUnauthorizedError) := by
  constructor <;> intro h <;> simp only [updateStatus, hs, h]

/-- C1 (witness for the amended theorem): the owner moves an `accepted`
application to `rejected`; a non-owner gets the 404 error. -/
theorem updateStatus_ignores_current_status_witness :
    updateStatus dbTerm 2 1 "rejected" =
      .ok ({ appAcc with status := AppStatus.rejected },
        { dbTerm with applications := dbTerm.applications.map (fun x =>
            if ownsRow dbTerm 2 1 x then { x with status := AppStatus.rejected } else x) }) ∧
    updateStatus dbTerm 77 1 "rejected" = .error .NotFoundOrUnauthorizedError :=
  ⟨(updateStatus_ignores_current_status dbTerm 2 1 "rejected" .rejected appAcc rfl).1
      (by decide),
   (updateStatus_ignores_current_status dbTerm 77 1 "rejected" .rejected appAcc rfl).2
      (by decide)⟩

/-! Feed ordering (claims about GET `/posts`). -/

theorem head?_of_head?_take {α : Type} {l : List α} {n : Nat} {b : α}
    (h : (l.take n).head? = some b) : l.head? = some b := by
  cases l with
  | nil => simp at h
  | cons c l' =>
    cases n with
    | zero => simp at h
    | succ n' => simpa using h

theorem chain'_take {α : Type} {R : α → α → Prop} :
    ∀ (l : List α) (n : Nat), List.Chain' R l → List.Chain' R (l.take n) := by
  intro l
  induction l with
  | nil => intro n _; simp
  | cons a l ih =>
    intro n h
    cases n with
    | zero => simp
    | succ n =>
      rw [List.take_succ_cons]
      rw [List.chain'_cons'] at h ⊢
      refine ⟨?_, ih n h.2⟩
      intro b hb
      exact h.1 b (head?_of_head?_take hb)

theorem chain'_drop {α : Type} {R : α → α → Prop} :
    ∀ (n : Nat) (l : List α), List.Chain' R l → List.Chain' R (l.drop n) := by
  intro n
  induction n with
  | zero => intro l h; simpa using h
  | succ n ih =>
    intro l h
    rw [← List.tail_drop]
    exact (ih l h).tail

/-- The ORDER BY comparator implies the claimed adjacent-pair contract. -/
theorem feedLE_sound (db : DB) (viewerId : Nat) (now : Int) (a b : Post)
    (h : feedLE db viewerId now a b = true) : feedOrdOk db viewerId now a b := by
  unfold feedLE at h
  simp only [feedOrdOk, pairLexLE, bucketPair, Prod.mk.injEq]
  by_cases h1 : expBucket now a < expBucket now b
  · exact ⟨Or.inl h1, fun he => absurd he.1 (Nat.ne_of_lt h1)⟩
  · rw [if_neg h1] at h
    by_cases h2 : expBucket now b < expBucket now a
    · rw [if_pos h2] at h
      exact absurd h (by simp)
    · rw [if_neg h2] at h
      have he : expBucket now a = expBucket now b :=
        Nat.le_antisymm (Nat.not_lt.mp h2) (Nat.not_lt.mp h1)
      by_cases h3 : followBucket db viewerId a < followBucket db viewerId b
      · exact ⟨Or.inr ⟨he, Nat.le_of_lt h3⟩, fun hp => absurd hp.2 (Nat.ne_of_lt h3)⟩
      · rw [if_neg h3] at h
        by_cases h4 : followBucket db viewerId b < followBucket db viewerId a
        · rw [if_pos h4] at h
          exact absurd h (by simp)
        · rw [if_neg h4] at h
          have hf : followBucket db viewerId a = followBucket db viewerId b :=
            Nat.le_antisymm (Nat.not_lt.mp h4) (Nat.not_lt.mp h3)
          exact ⟨Or.inr ⟨he, Nat.le_of_eq hf⟩, fun _ => of_decide_eq_true h⟩

/-- C3: in every page the database may return for the feed query, adjacent
posts have lexicographically non-decreasing (expiration bucket, follow
bucket) pairs, and `created_at` is non-increasing where the pairs are
equal. -/
theorem feed_adjacent_sorted (db : DB) (viewerId : Nat) (now : Int)
    (typeFilter : Option PostType) (page limit : Nat) (result : List Post)
    (h : isFeedResult db viewerId now typeFilter page limit result) :
    List.Chain' (feedOrdOk db viewerId now) result := by
  obtain ⟨full, _, hchain, hres⟩ := h
  subst hres
  exact List.Chain'.imp (fun a b hab => feedLE_sound db viewerId now a b hab)
    (chain'_take _ _ (chain'_drop _ _ hchain))

def uAuthor : User := { id := 10, account_type := .candidate }

def pW1 : Post :=
  { id := 3, user_id := 10, post_type := .find_job, attached_cv_id := none,
    created_at := 2000 }

def pW2 : Post :=
  { id := 4, user_id := 10, post_type := .find_job, attached_cv_id := none,
    created_at := 1000 }

def dbFeed : DB :=
  { users := [uAuthor], cvs := [], posts := [pW1, pW2], applications := [],
    follows := [], nextPostId := 5, nextAppId := 1 }

/-- C3 (witness): a concrete two-post feed page satisfies the contract. -/
theorem feed_adjacent_sorted_witness :
    List.Chain' (feedOrdOk dbFeed 99 3000) [pW1, pW2] := by
  refine feed_adjacent_sorted dbFeed 99 3000 none 1 10 [pW1, pW2]
    ⟨[pW1, pW2], ?_, ?_, rfl⟩
  · have h : dbFeed.posts.filter (feedMatches dbFeed none) = [pW1, pW2] := by decide
    rw [h]
  · exact List.chain'_pair.mpr (by decide)

/-- Two posts that tie on all three ORDER BY keys. -/
def pT1 : Post :=
  { id := 1, user_id := 10, post_type := .find_job, attached_cv_id := none,
    created_at := 1000 }

def pT2 : Post :=
  { id := 2, user_id := 10, post_type := .find_job, attached_cv_id := none,
    created_at := 1000 }

def dbTie : DB :=
  { users := [uAuthor], cvs := [], posts := [pT1, pT2], applications := [],
    follows := [], nextPostId := 3, nextAppId := 1 }

/-- C7 (counterexample): a feed page the query contract permits in which
two posts tie on all three keys and appear in ascending — not the claimed
descending — id order. -/
theorem feed_tiebreak_counterexample :
    isFeedResult dbTie 99 1000 none 1 10 [pT1, pT2] ∧
    ¬ List.Chain' (tieByIdDesc dbTie 99 1000) [pT1, pT2] := by
  constructor
  · refine ⟨[pT1, pT2], ?_, ?_, rfl⟩
    · have h : dbTie.posts.filter (feedMatches dbTie none) = [pT1, pT2] := by decide
      rw [h]
    · exact List.chain'_pair.mpr (by decide)
  · intro hc
    rw [List.chain'_cons] at hc
    exact absurd (hc.1 (by decide) (by decide)) (by decide)

/-- C7 (amended): the ORDER BY carries no tie-break key at all — for posts
equal on all three keys, both relative orders are valid results of the
same query, so the order at ties is not determined. -/
theorem feed_tie_order_not_unique :
    isFeedResult dbTie 99 1000 none 1 10 [pT1, pT2] ∧
    isFeedResult dbTie 99 1000 none 1 10 [pT2, pT1] := by
  constructor
  · refine ⟨[pT1, pT2], ?_, ?_, rfl⟩
    · have h : dbTie.posts.filter (feedMatches dbTie none) = [pT1, pT2] := by decide
      rw [h]
    · exact List.chain'_pair.mpr (by decide)
  · refine ⟨[pT2, pT1], ?_, ?_, rfl⟩
    · have h : dbTie.posts.filter (feedMatches dbTie none) = [pT1, pT2] := by decide
      rw [h]
      exact List.Perm.swap pT2 pT1 []
    · exact List.chain'_pair.mpr (by decide)

/-! Application creation (claims C4 and C5). -/

/-- Inversion of a successful apply: every guard passed and the new row
was appended. -/
theorem apply_ok_inv (db : DB) (now : Int) (actor : User) (pid cvid : Nat)
    (app : Application) (db1 : DB)
    (h : apply db now actor pid cvid = .ok (app, db1)) :
    actor.account_type = .candidate ∧
    (∃ post, findPost db pid = some post ∧ post.post_type = .find_candidate ∧
      applyExpiredCheck now post = false) ∧
    (db.cvs.any fun c => c.id == cvid && c.user_id == actor.id && c.is_active) = true ∧
    (db.applications.any fun a => a.post_id == pid && a.applicant_id == actor.id) = false ∧
    app = { id := db.nextAppId, post_id := pid, cv_id := cvid,
            applicant_id := actor.id, status := .pending, created_at := now } ∧
    db1 = { db with applications := db.applications ++ [app],
                    nextAppId := db.nextAppId + 1 } := by
  unfold apply at h
  split at h
  · simp at h
  next hcand =>
    split at h
    · simp at h
    next post hfind =>
      split at h
      · simp at h
      next htype =>
        split at h
        · simp at h
        next hexp =>
          split at h
          · simp at h
          next hcv =>
            split at h
            · simp at h
            next hdup =>
              rw [Except.ok.injEq, Prod.mk.injEq] at h
              refine ⟨not_not.mp hcand, ⟨post, hfind, not_not.mp htype, ?_⟩,
                ?_, ?_, h.1.symm, ?_⟩
              · cases hx : applyExpiredCheck now post with
                | false => rfl
                | true => exact absurd hx hexp
              · cases hx : db.cvs.any fun c =>
                    c.id == cvid && c.user_id == actor.id && c.is_active with
                | false => exact absurd hx hcv
                | true => rfl
              · cases hx : db.applications.any fun a =>
                    a.post_id == pid && a.applicant_id == actor.id with
                | false => rfl
                | true => exact absurd hx hdup
              · rw [← h.2, ← h.1]

/-- Case analysis of the apply guards, shared by the claims below. -/
theorem apply_guard_cases (db : DB) (now : Int) (actor : User) (pid cvid : Nat) :
    (actor.account_type ≠ .candidate →
      apply db now actor pid cvid = .error .ForbiddenError) ∧
    (actor.account_type = .candidate → findPost db pid = none →
      apply db now actor pid cvid = .error .NotFoundError) ∧
    (∀ post, actor.account_type = .candidate → findPost db pid = some post →
      post.post_type ≠ .find_candidate →
      apply db now actor pid cvid = .error .InvalidPostTypeError) ∧
    (∀ post, actor.account_type = .candidate → findPost db pid = some post →
      post.post_type = .find_candidate → applyExpiredCheck now post = true →
      apply db now actor pid cvid = .error .ExpiredPostError) ∧
    (∀ post, actor.account_type = .candidate → findPost db pid = some post →
      post.post_type = .find_candidate → applyExpiredCheck now post = false →
      (db.cvs.any fun c => c.id == cvid && c.user_id == actor.id && c.is_active) = false →
      apply db now actor pid cvid = .error .InvalidCvError) ∧
    (∀ post, actor.account_type = .candidate → findPost db pid = some post →
      post.post_type = .find_candidate → applyExpiredCheck now post = false →
      (db.cvs.any fun c => c.id == cvid && c.user_id == actor.id && c.is_active) = true →
      (db.applications.any fun a => a.post_id == pid && a.applicant_id == actor.id) = true →
      apply db now actor pid cvid = .error .DuplicateApplicationError) ∧
    (∀ post, actor.account_type = .candidate → findPost db pid = some post →
      post.post_type = .find_candidate → applyExpiredCheck now post = false →
      (db.cvs.any fun c => c.id == cvid && c.user_id == actor.id && c.is_active) = true →
      (db.applications.any fun a => a.post_id == pid && a.applicant_id == actor.id) = false →
      apply db now actor pid cvid =
        (let app : Application :=
          { id := db.nextAppId, post_id := pid, cv_id := cvid,
            applicant_id := actor.id, status := .pending, created_at := now }
         Except.ok (app, { db with applications := db.applications ++ [app],
                                   nextAppId := db.nextAppId + 1 }))) := by
  refine ⟨?_, ?_, ?_, ?_, ?_, ?_, ?_⟩
  · intro h
    simp [apply, h]
  · intro h1 h2
    simp [apply, h1, h2]
  · intro post h1 h2 h3
    simp [apply, h1, h2, h3]
  · intro post h1 h2 h3 h4
    simp [apply, h1, h2, h3, h4]
  · intro post h1 h2 h3 h4 h5
    simp [apply, h1, h2, h3, h4, h5]
  · intro post h1 h2 h3 h4 h5 h6
    simp [apply, h1, h2, h3, h4, h5, h6]
  · intro post h1 h2 h3 h4 h5 h6
    simp [apply, h1, h2, h3, h4, h5, h6]

/-- C5: the guard order of POST `/applications` — role, post existence,
post type, expiration, CV usability, duplicate — each failing guard yields
its error once the earlier guards pass, and when every guard passes a
single `pending` application is appended. -/
theorem apply_error_cases (db : DB) (now : Int) (actor : User) (pid cvid : Nat) :
    (actor.account_type ≠ .candidate →
      apply db now actor pid cvid = .error .ForbiddenError) ∧
    (actor.account_type = .candidate → findPost db pid = none →
      apply db now actor pid cvid = .error .NotFoundError) ∧
    (∀ post, actor.account_type = .candidate → findPost db pid = some post →
      post.post_type ≠ .find_candidate →
      apply db now actor pid cvid = .error .InvalidPostTypeError) ∧
    (∀ post, actor.account_type = .candidate → findPost db pid = some post →
      post.post_type = .find_candidate → applyExpiredCheck now post = true →
      apply db now actor pid cvid = .error .ExpiredPostError) ∧
    (∀ post, actor.account_type = .candidate → findPost db pid = some post →
      post.post_type = .find_candidate → applyExpiredCheck now post = false →
      (db.cvs.any fun c => c.id == cvid && c.user_id == actor.id && c.is_active) = false →
      apply db now actor pid cvid = .error .InvalidCvError) ∧
    (∀ post, actor.account_type = .candidate → findPost db pid = some post →
      post.post_type = .find_candidate → applyExpiredCheck now post = false →
      (db.cvs.any fun c => c.id == cvid && c.user_id == actor.id && c.is_active) = true →
      (db.applications.any fun a => a.post_id == pid && a.applicant_id == actor.id) = true →
      apply db now actor pid cvid = .error .DuplicateApplicationError) ∧
    (∀ post, actor.account_type = .candidate → findPost db pid = some post →
      post.post_type = .find_candidate → applyExpiredCheck now post = false →
      (db.cvs.any fun c => c.id == cvid && c.user_id == actor.id && c.is_active) = true →
      (db.applications.any fun a => a.post_id == pid && a.applicant_id == actor.id) = false →
      apply db now actor pid cvid =
        (let app : Application :=
          { id := db.nextAppId, post_id := pid, cv_id := cvid,
            applicant_id := actor.id, status := .pending, created_at := now }
         Except.ok (app, { db with applications := db.applications ++ [app],
                                   nextAppId := db.nextAppId + 1 }))) :=
  apply_guard_cases db now actor pid cvid

/-- C4: after a successful apply, re-applying with the same arguments
fails with `DuplicateApplicationError` (hence changes nothing), and the
store holds exactly one application for the (post, applicant) pair. -/
theorem apply_twice_duplicate (db : DB) (now : Int) (actor : User) (pid cvid : Nat)
    (app : Application) (db1 : DB)
    (h : apply db now actor pid cvid = .ok (app, db1)) :
    apply db1 now actor pid cvid = .error .DuplicateApplicationError ∧
    (db1.applications.filter fun a =>
      a.post_id == pid && a.applicant_id == actor.id).length = 1 := by
  obtain ⟨hcand, ⟨post, hfind, htype, hexp⟩, hcv, hdup, happ, hdb1⟩ :=
    apply_ok_inv db now actor pid cvid app db1 h
  subst hdb1
  have hmem : (app.post_id == pid && app.applicant_id == actor.id) = true := by
    rw [happ]
    simp
  constructor
  · have hdup1 : ((db.applications ++ [app]).any fun a =>
        a.post_id == pid && a.applicant_id == actor.id) = true := by
      rw [List.any_append]
      have hone : ([app].any fun a =>
          a.post_id == pid && a.applicant_id == actor.id) = true := by
        rw [List.any_cons, hmem]
        simp
      rw [hone]
      simp
    exact (apply_guard_cases _ now actor pid cvid).2.2.2.2.2.1 post hcand hfind
      htype hexp hcv hdup1
  · show ((db.applications ++ [app]).filter fun a =>
      a.post_id == pid && a.applicant_id == actor.id).length = 1
    rw [List.filter_append]
    have hnil : (db.applications.filter fun a =>
        a.post_id == pid && a.applicant_id == actor.id) = [] := by
      rw [List.filter_eq_nil_iff]
      intro a ha
      intro hx
      have hh : (db.applications.any fun a =>
          a.post_id == pid && a.applicant_id == actor.id) = true :=
        List.any_eq_true.mpr ⟨a, ha, hx⟩
      rw [hh] at hdup
      exact absurd hdup (by simp)
    rw [hnil]
    simp [List.filter_cons, hmem]

def cvA : Cv := { id := 1, user_id := 3, is_active := true }

def dbApply : DB :=
  { users := [uCo, uCand], cvs := [cvA], posts := [postOwned], applications := [],
    follows := [], nextPostId := 2, nextAppId := 1 }

def appNew : Application :=
  { id := 1, post_id := 1, cv_id := 1, applicant_id := 3, status := .pending,
    created_at := 5 }

def dbApplied : DB :=
  { users := [uCo, uCand], cvs := [cvA], posts := [postOwned],
    applications := [appNew], follows := [], nextPostId := 2, nextAppId := 2 }

/-- C5 (witness): a fully valid application passes every guard and is
created in `pending`. -/
theorem apply_error_cases_witness :
    apply dbApply 5 uCand 1 1 = .ok (appNew, dbApplied) :=
  (apply_error_cases dbApply 5 uCand 1 1).2.2.2.2.2.2 postOwned rfl rfl rfl
    (by decide) (by decide) (by decide)

/-- C4 (witness): after the concrete successful apply, the identical
second call is rejected as a duplicate and one row exists for the pair. -/
theorem apply_twice_duplicate_witness :
    apply dbApplied 5 uCand 1 1 = .error .DuplicateApplicationError ∧
    (dbApplied.applications.filter fun a =>
      a.post_id == 1 && a.applicant_id == uCand.id).length = 1 :=
  apply_twice_duplicate dbApply 5 uCand 1 1 appNew dbApplied rfl

/-! Post creation (claims C6 and C8). -/

/-- C6: post type must match account type — a candidate cannot create a
`find_candidate` post and a company cannot create a `find_job` post
(`InvalidPostTypeError`); a `find_job` post without a CV id fails with
`MissingCvError`; the two matching combinations succeed. -/
theorem createPost_type_matrix (db : DB) (now : Int) (actor : User) (cv : Option Nat) :
    (actor.account_type = .candidate →
      createPost db now actor .find_candidate cv = .error .InvalidPostTypeError) ∧
    (actor.account_type = .company →
      createPost db now actor .find_job cv = .error .InvalidPostTypeError) ∧
    (actor.account_type = .candidate →
      createPost db now actor .find_job none = .error .MissingCvError) ∧
    (actor.account_type = .candidate → jsTruthy cv = true →
      createPost db now actor .find_job cv =
        (let post : Post :=
          { id := db.nextPostId, user_id := actor.id, post_type := .find_job,
            attached_cv_id := orNull cv, created_at := now }
         Except.ok (post, { db with posts := db.posts ++ [post],
                                    nextPostId := db.nextPostId + 1 }))) ∧
    (actor.account_type = .company →
      createPost db now actor .find_candidate cv =
        (let post : Post :=
          { id := db.nextPostId, user_id := actor.id, post_type := .find_candidate,
            attached_cv_id := orNull cv, created_at := now }
         Except.ok (post, { db with posts := db.posts ++ [post],
                                    nextPostId := db.nextPostId + 1 }))) := by
  refine ⟨?_, ?_, ?_, ?_, ?_⟩
  · intro h
    simp [createPost, h]
  · intro h
    simp [createPost, h]
  · intro h
    simp [createPost, h, jsTruthy]
  · intro h hcv
    simp [createPost, h, hcv]
  · intro h
    simp [createPost, h]

/-- C6 (witness): a candidate attempting a `find_candidate` post is
rejected. -/
theorem createPost_type_matrix_witness :
    createPost dbApply 7 uCand .find_candidate none = .error .InvalidPostTypeError :=
  (createPost_type_matrix dbApply 7 uCand none).1 rfl

/-- C8 (counterexample): a company creates a `find_candidate` post while
supplying a cvId — the route neither rejects nor discards it, and the
stored post carries `attached_cv_id = some 5`. -/
theorem createPost_cv_passthrough_counterexample :
    createPost dbApply 7 uCo .find_candidate (some 5) =
      .ok ({ id := 2, user_id := 2, post_type := .find_candidate,
             attached_cv_id := some 5, created_at := 7 },
        { dbApply with
            posts := [postOwned,
              { id := 2, user_id := 2, post_type := .find_candidate,
                attached_cv_id := some 5, created_at := 7 }],
            nextPostId := 3 }) := by
  rfl

/-- C8 (amended): creation of a `find_candidate` post by a company always
succeeds and stores the supplied cvId after the JS `|| null` coercion —
the no-CV invariant for `find_candidate` posts is not enforced. -/
theorem createPost_find_candidate_keeps_cv (db : DB) (now : Int) (actor : User)
    (cv : Option Nat) (h : actor.account_type = .company) :
    createPost db now actor .find_candidate cv =
      (let post : Post :=
        { id := db.nextPostId, user_id := actor.id, post_type := .find_candidate,
          attached_cv_id := orNull cv, created_at := now }
       Except.ok (post, { db with posts := db.posts ++ [post],
                                  nextPostId := db.nextPostId + 1 })) ∧
    (jsTruthy cv = true → orNull cv = cv) := by
  constructor
  · simp [createPost, h]
  · intro hcv
    simp [orNull, hcv]

/-- C8 (witness for the amended theorem): concrete company, concrete cvId. -/
theorem createPost_find_candidate_keeps_cv_witness :
    createPost dbTerm 7 uCo .find_candidate (some 9) =
      .ok ({ id := 2, user_id := 2, post_type := .find_candidate,
             attached_cv_id := some 9, created_at := 7 },
        { dbTerm with
            posts := [postOwned,
              { id := 2, user_id := 2, post_type := .find_candidate,
                attached_cv_id := some 9, created_at := 7 }],
            nextPostId := 3 }) :=
  (createPost_find_candidate_keeps_cv dbTerm 7 uCo (some 9) rfl).1

/-! Ownership failures and their HTTP codes (claim C9). -/

/-- C9 (counterexample): listing the applications of an existing post the
actor does not own is answered with `ForbiddenError` / HTTP 403 — an
existence-disclosing response — not with the claimed 404. -/
theorem listForPost_forbidden_counterexample :
    listForPost dbTerm uCand 1 = .error .ForbiddenError ∧
    httpStatus .ForbiddenError = 403 := by
  constructor
  · rfl
  · rfl

/-- C9 (amended): post update and delete, and application status update,
report ownership failures as `NotFoundOrUnauthorizedError` (404); but the
by-post application listing reports an existing non-owned post with
`ForbiddenError` (403). -/
theorem ownership_error_codes (db : DB) (actor : User) (pid appId : Nat)
    (cv : Option Nat) (s : String) (st : AppStatus) (post : Post) :
    ((db.posts.find? fun p => p.id == pid && p.user_id == actor.id) = none →
      updatePost db actor pid cv = .error .NotFoundOrUnauthorizedError ∧
      deletePost db actor pid = .error .NotFoundOrUnauthorizedError) ∧
    (parseStatus s = some st →
      db.applications.find? (ownsRow db actor.id appId) = none →
      updateStatus db actor.id appId s = .error .NotFoundOrUnauthorizedError) ∧
    (findPost db pid = some post → post.user_id ≠ actor.id →
      listForPost db actor pid = .error .ForbiddenError) ∧
    httpStatus .NotFoundOrUnauthorizedError = 404 ∧
    httpStatus .ForbiddenError = 403 := by
  refine ⟨?_, ?_, ?_, rfl, rfl⟩
  · intro h
    constructor
    · simp only [updatePost, h]
    · have hnil : (db.posts.filter fun p => p.id == pid && p.user_id == actor.id) = [] := by
        rw [List.filter_eq_nil_iff]
        intro p hp hx
        have := List.find?_eq_none.mp h p hp
        exact this hx
      simp only [deletePost, hnil]
      rfl
  · intro hs h
    simp only [updateStatus, hs, h]
  · intro hfind hne
    simp [listForPost, hfind, hne]

/-- C9 (witness for the amended theorem): a non-owner's post update and
delete are both answered 404-style. -/
theorem ownership_error_codes_witness :
    updatePost dbTerm uCand 1 none = .error .NotFoundOrUnauthorizedError ∧
    deletePost dbTerm uCand 1 = .error .NotFoundOrUnauthorizedError :=
  (ownership_error_codes dbTerm uCand 1 1 none "pending" .pending postOwned).1
    (by decide)

end JoBook
